import Mathlib

/-!
Verification of the hipBLAS client test harnesses for the batched AXPY,
SYR2 and DOT/DOTC routines
(`testing_axpy_batched.hpp`, `testing_syr2_batched.hpp`, `testing_dot_batched.hpp`).

Each harness is shallowly embedded as an executable Lean function from an
`Arguments` record (the fields of the C++ `Arguments` struct that the harness
reads) and a status oracle (the statuses returned by the external hipBLAS shim
calls, which are outside this repository) to a pair of a returned
`HipblasStatus` and a trace of the externally visible events the harness
performs: handle creation/destruction, buffer allocation, the host-to-device
copy of the scalar alpha, pointer-mode changes, shim invocations (recording the
pointer mode in effect, where the scalar lives and which value it holds, and
which output buffer is written), the per-batch CPU BLAS reference calls, the
unit/norm comparisons, and the timing instrumentation.

Scalar values are modelled by `Int` (the template parameter `T` only flows
through the harnesses; no arithmetic on it happens in this code).  The CPU
reference routines (`cblas_axpy`, `cblas_syr2`, `cblas_dot`, `cblas_dotc`) are
external library functions; the reference loops are modelled generically over
an arbitrary per-batch function, which is all the claims about them need.
-/

/-- Status codes returned by hipBLAS calls.  Only `success` and
`invalidValue` are distinguished by the harness logic; the rest are carried
through opaquely. -/
inductive HipblasStatus where
  | success
  | invalidValue
  | notInitialized
  | allocFailed
  | internalError
  | other (n : Nat)
deriving DecidableEq, Repr

/-- The two pointer modes of a hipBLAS handle
(`HIPBLAS_POINTER_MODE_HOST` / `HIPBLAS_POINTER_MODE_DEVICE`). -/
inductive PMode where
  | host
  | device
deriving DecidableEq, Repr

/-- Where a scalar argument handed to the shim lives. -/
inductive Loc where
  | host
  | device
deriving DecidableEq, Repr

/-- The two result-check kinds used by the harnesses
(`unit_check_general` and `norm_check_general`). -/
inductive CheckKind where
  | unit
  | norm
deriving DecidableEq, Repr

/-- The fields of the C++ `Arguments` struct that the three harnesses read.
C `int` fields are modelled as `Int`. -/
structure Arguments where
  N : Int
  incx : Int
  incy : Int
  lda : Int
  batch_count : Int
  alpha : Int
  fortran : Bool
  unit_check : Bool
  norm_check : Bool
  timing : Bool
  cold_iters : Int
  iters : Int
deriving DecidableEq, Repr

/-- The benchmarking loop shared by the harnesses:
`for(int iter = 0; iter < runs; iter++) { if(iter == cold_iters) start timer;
 call; if(status != success) early-return status; }`.
`call` is the event recorded for one shim invocation, `start` the event for
reading the timer, `st k` the status of the `k`-th loop invocation, `i` the
current value of `iter` and `fuel` the number of iterations left
(`runs - iter`).  Returns the events of the loop together with the status of
the first failing invocation, if any. -/
def timingLoop {ε : Type} (call start : ε) (st : Nat → HipblasStatus)
    (cold : Int) : Nat → Nat → List ε × Option HipblasStatus
  | _, 0 => ([], none)
  | i, fuel + 1 =>
    let pre : List ε := if (i : Int) = cold then [start] else []
    if st i ≠ HipblasStatus.success then
      (pre ++ [call], some (st i))
    else
      let r := timingLoop call start st cold (i + 1) fuel
      (pre ++ call :: r.1, r.2)

/-! ## The AXPY harness (`testing_axpy_batched.hpp`) -/

/-- Output buffers of the AXPY harness appearing in comparisons and shim
calls: the host-mode result vector batch, the device-mode result vector batch,
and the CPU reference copy. -/
inductive AxpyBuf where
  | hyHost
  | hyDevice
  | hyCpu
deriving DecidableEq, Repr

/-- Externally visible events of the AXPY harness. -/
inductive AxpyEv where
  | createHandle
  | allocBuffers
  | copyAlphaToDevice (v : Int)
  | setMode (m : PMode)
  | axpyCall (mode : PMode) (alphaLoc : Loc) (alphaVal : Int) (ybuf : AxpyBuf)
  | cblasAxpy (b : Nat)
  | checkEv (kind : CheckKind) (ref out : AxpyBuf)
  | timerStart
  | destroyHandle
deriving DecidableEq, Repr

/-- Statuses returned by the external shim calls made by the AXPY harness:
`setModeSt k` is the status of the `k`-th `hipblasSetPointerMode` call,
`axpySt k` of the `k`-th `hipblasAxpyBatched` call (the two pointer-mode calls
are numbers 0 and 1; the timing loop's iteration `i` is number `2 + i`),
`getStreamSt` of the `hipblasGetStream` call. -/
structure AxpyOracle where
  setModeSt : Nat → HipblasStatus
  axpySt : Nat → HipblasStatus
  getStreamSt : HipblasStatus

/-- The argument sanity check of `testing_axpy_batched`:
`N < 0 || !incx || !incy || batch_count < 0`. -/
def axpyInvalid (a : Arguments) : Bool :=
  a.N < 0 || a.incx == 0 || a.incy == 0 || a.batch_count < 0

/-- Shallow embedding of `testing_axpy_batched`.  Returns the
`hipblasStatus_t` the function returns together with the trace of events it
performs. -/
def testing_axpy_batched (argus : Arguments) (o : AxpyOracle) :
    HipblasStatus × List AxpyEv :=
  if axpyInvalid argus then
    (HipblasStatus.invalidValue, [])
  else if argus.batch_count == 0 then
    (HipblasStatus.success, [])
  else
    let alpha := argus.alpha
    let ev0 : List AxpyEv :=
      [AxpyEv.createHandle, AxpyEv.allocBuffers, AxpyEv.copyAlphaToDevice alpha]
    let status_1 := o.setModeSt 0
    let status_2 := o.axpySt 0
    let status_3 := o.setModeSt 1
    let status_4 := o.axpySt 1
    let ev1 : List AxpyEv := ev0 ++
      [AxpyEv.setMode PMode.device,
       AxpyEv.axpyCall PMode.device Loc.device alpha AxpyBuf.hyDevice,
       AxpyEv.setMode PMode.host,
       AxpyEv.axpyCall PMode.host Loc.host alpha AxpyBuf.hyHost]
    if status_1 ≠ HipblasStatus.success ∨ status_2 ≠ HipblasStatus.success
        ∨ status_3 ≠ HipblasStatus.success ∨ status_4 ≠ HipblasStatus.success then
      (if status_1 ≠ HipblasStatus.success then status_1
       else if status_2 ≠ HipblasStatus.success then status_2
       else if status_3 ≠ HipblasStatus.success then status_3
       else status_4,
       ev1 ++ [AxpyEv.destroyHandle])
    else
      let evCheck : List AxpyEv :=
        if argus.unit_check || argus.norm_check then
          ((List.range argus.batch_count.toNat).map fun b => AxpyEv.cblasAxpy b)
          ++ (if argus.unit_check then
                [AxpyEv.checkEv CheckKind.unit AxpyBuf.hyCpu AxpyBuf.hyHost,
                 AxpyEv.checkEv CheckKind.unit AxpyBuf.hyCpu AxpyBuf.hyDevice]
              else [])
          ++ (if argus.norm_check then
                [AxpyEv.checkEv CheckKind.norm AxpyBuf.hyCpu AxpyBuf.hyHost,
                 AxpyEv.checkEv CheckKind.norm AxpyBuf.hyCpu AxpyBuf.hyDevice]
              else [])
        else []
    if argus.timing then
      let s1 := o.getStreamSt
      let s2 := o.setModeSt 2
      if s1 ≠ HipblasStatus.success ∨ s2 ≠ HipblasStatus.success then
        (if s1 ≠ HipblasStatus.success then s1 else s2,
         ev1 ++ evCheck ++ [AxpyEv.setMode PMode.device, AxpyEv.destroyHandle])
      else
        let runs := (argus.cold_iters + argus.iters).toNat
        let loopRes := timingLoop
          (AxpyEv.axpyCall PMode.device Loc.device alpha AxpyBuf.hyDevice)
          AxpyEv.timerStart (fun i => o.axpySt (2 + i)) argus.cold_iters 0 runs
        (loopRes.2.getD HipblasStatus.success,
         ev1 ++ evCheck ++ [AxpyEv.setMode PMode.device]
         ++ loopRes.1 ++ [AxpyEv.destroyHandle])
    else
      (HipblasStatus.success, ev1 ++ evCheck ++ [AxpyEv.destroyHandle])

/-! ## The DOT / DOTC harness (`testing_dot_batched.hpp`) -/

/-- Result buffers of the DOT harness appearing in comparisons:
`h_hipblas_result1` (written by the host-pointer-mode call),
`h_hipblas_result2` (copied back from the device buffer `d_hipblas_result`
written by the device-pointer-mode call), and `h_cpu_result` (the CPU
reference). -/
inductive DotBuf where
  | result1
  | result2
  | cpuResult
deriving DecidableEq, Repr

/-- Externally visible events of the DOT harness.  A `dotCall` records the
pointer mode in effect on the handle, whether the conjugating variant is
invoked, and whether the result argument is a device address
(`d_hipblas_result`) or a host address (`h_hipblas_result1`). -/
inductive DotEv where
  | createHandle
  | allocBuffers
  | setMode (m : PMode)
  | dotCall (mode : PMode) (conj : Bool) (resultLoc : Loc)
  | copyResultToHost
  | cblasDot (conj : Bool) (b : Nat)
  | checkEv (kind : CheckKind) (ref out : DotBuf)
  | timerStart
  | destroyHandle
deriving DecidableEq, Repr

/-- Statuses of the external shim calls made by the DOT harness, indexed in
call order exactly as in `AxpyOracle` (the timing loop's iteration `i` is dot
call number `2 + i`). -/
structure DotOracle where
  setModeSt : Nat → HipblasStatus
  dotSt : Nat → HipblasStatus
  getStreamSt : HipblasStatus

/-- The argument sanity check of `testing_dot_batched`:
`N < 0 || incx < 0 || incy < 0 || batch_count < 0`. -/
def dotInvalid (a : Arguments) : Bool :=
  a.N < 0 || a.incx < 0 || a.incy < 0 || a.batch_count < 0

/-- Shallow embedding of `testing_dot_batched<T, CONJ>`.  Returns the
`hipblasStatus_t` the function returns together with the trace of events it
performs. -/
def testing_dot_batched (CONJ : Bool) (argus : Arguments) (o : DotOracle) :
    HipblasStatus × List DotEv :=
  if dotInvalid argus then
    (HipblasStatus.invalidValue, [])
  else if argus.batch_count == 0 then
    (HipblasStatus.success, [])
  else
    let ev0 : List DotEv := [DotEv.createHandle, DotEv.allocBuffers]
    let status_1 := o.setModeSt 0
    let status_2 := o.dotSt 0
    let status_3 := o.setModeSt 1
    let status_4 := o.dotSt 1
    let ev1 : List DotEv := ev0 ++
      [DotEv.setMode PMode.device,
       DotEv.dotCall PMode.device CONJ Loc.device,
       DotEv.setMode PMode.host,
       DotEv.dotCall PMode.host CONJ Loc.host]
    if status_1 ≠ HipblasStatus.success ∨ status_2 ≠ HipblasStatus.success
        ∨ status_3 ≠ HipblasStatus.success ∨ status_4 ≠ HipblasStatus.success then
      (if status_1 ≠ HipblasStatus.success then status_1
       else if status_2 ≠ HipblasStatus.success then status_2
       else if status_3 ≠ HipblasStatus.success then status_3
       else status_4,
       ev1 ++ [DotEv.destroyHandle])
    else
      let ev2 : List DotEv := ev1 ++ [DotEv.copyResultToHost]
      let evCheck : List DotEv :=
        if argus.unit_check || argus.norm_check then
          ((List.range argus.batch_count.toNat).map fun b => DotEv.cblasDot CONJ b)
          ++ (if argus.unit_check then
                [DotEv.checkEv CheckKind.unit DotBuf.cpuResult DotBuf.result1,
                 DotEv.checkEv CheckKind.unit DotBuf.cpuResult DotBuf.result2]
              else [])
          ++ (if argus.norm_check then
                [DotEv.checkEv CheckKind.norm DotBuf.cpuResult DotBuf.result1,
                 DotEv.checkEv CheckKind.norm DotBuf.cpuResult DotBuf.result2]
              else [])
        else []
    if argus.timing then
      let s1 := o.getStreamSt
      let s2 := o.setModeSt 2
      if s1 ≠ HipblasStatus.success ∨ s2 ≠ HipblasStatus.success then
        (if s1 ≠ HipblasStatus.success then s1 else s2,
         ev2 ++ evCheck ++ [DotEv.setMode PMode.device, DotEv.destroyHandle])
      else
        let runs := (argus.cold_iters + argus.iters).toNat
        let loopRes := timingLoop (DotEv.dotCall PMode.device CONJ Loc.device)
          DotEv.timerStart (fun i => o.dotSt (2 + i)) argus.cold_iters 0 runs
        (loopRes.2.getD HipblasStatus.success,
         ev2 ++ evCheck ++ [DotEv.setMode PMode.device]
         ++ loopRes.1 ++ [DotEv.destroyHandle])
    else
      (HipblasStatus.success, ev2 ++ evCheck ++ [DotEv.destroyHandle])

/-- Shallow embedding of `testing_dotc_batched<T>`:
`return testing_dot_batched<T, true>(argus);`. -/
def testing_dotc_batched (argus : Arguments) (o : DotOracle) :
    HipblasStatus × List DotEv :=
  testing_dot_batched true argus o

/-! ## The SYR2 harness (`testing_syr2_batched.hpp`) -/

/-- Output matrix buffers of the SYR2 harness appearing in comparisons:
the batch written by the host-pointer-mode call, the batch written by the
device-pointer-mode call, and the CPU reference copy. -/
inductive Syr2Buf where
  | hAHost
  | hADevice
  | hACpu
deriving DecidableEq, Repr

/-- Externally visible events of the SYR2 harness.  A `syr2Call` records the
pointer mode in effect, where the alpha argument lives and which value is
stored there (`none` models a null pointer), and whether all data pointers are
null (the quick-return probe call). -/
inductive Syr2Ev where
  | allocBuffers
  | copyAlphaToDevice (v : Int)
  | setMode (m : PMode)
  | syr2Call (mode : PMode) (alphaLoc : Option Loc) (alphaVal : Option Int)
      (nullData : Bool)
  | cblasSyr2 (b : Nat)
  | checkEv (kind : CheckKind) (ref out : Syr2Buf)
  | timerStart
  | expectStatus (actual expected : HipblasStatus)
deriving DecidableEq, Repr

/-- Statuses of the external shim calls made by the SYR2 harness, indexed by
occurrence order within one run. -/
structure Syr2Oracle where
  setModeSt : Nat → HipblasStatus
  syr2St : Nat → HipblasStatus
  getStreamSt : HipblasStatus

/-- The invalid-size condition of `testing_syr2_batched`:
`N < 0 || !incx || !incy || lda < N || lda < 1 || batch_count < 0`. -/
def syr2InvalidSize (a : Arguments) : Bool :=
  a.N < 0 || a.incx == 0 || a.incy == 0 || a.lda < a.N || a.lda < 1
    || a.batch_count < 0

/-- The benchmarking section of `testing_syr2_batched` (guarded by
`arg.timing`), appended after the events `evs` accumulated so far.
`callBase` is the index of the next `hipblasSyr2Batched` invocation and
`modeIdx` the index of the next `hipblasSetPointerMode` invocation, both
counted from the start of the run.  `CHECK_HIPBLAS_ERROR` failures abort the
test, modelled by a `some` status in the second component. -/
def syr2TimingSection (arg : Arguments) (o : Syr2Oracle) (evs : List Syr2Ev)
    (callBase modeIdx : Nat) : List Syr2Ev × Option HipblasStatus :=
  if arg.timing then
    let g := o.getStreamSt
    if g ≠ HipblasStatus.success then (evs, some g)
    else
      let sm := o.setModeSt modeIdx
      if sm ≠ HipblasStatus.success then
        (evs ++ [Syr2Ev.setMode PMode.device], some sm)
      else
        let runs := (arg.cold_iters + arg.iters).toNat
        let lr := timingLoop
          (Syr2Ev.syr2Call PMode.device (some Loc.device) (some arg.alpha) false)
          Syr2Ev.timerStart (fun i => o.syr2St (callBase + i)) arg.cold_iters 0 runs
        (evs ++ [Syr2Ev.setMode PMode.device] ++ lr.1, lr.2)
  else (evs, none)

/-- Shallow embedding of `testing_syr2_batched` (a `void` gtest function).
Returns the trace of events it performs; the second component is `some st`
when a `CHECK_HIPBLAS_ERROR` aborts the test with status `st`, `none` when
the function returns normally. -/
def testing_syr2_batched (arg : Arguments) (o : Syr2Oracle) :
    List Syr2Ev × Option HipblasStatus :=
  let invalid_size := syr2InvalidSize arg
  if invalid_size || arg.N == 0 || arg.batch_count == 0 then
    ([Syr2Ev.syr2Call PMode.host none none true,
      Syr2Ev.expectStatus (o.syr2St 0)
        (if invalid_size then HipblasStatus.invalidValue
         else HipblasStatus.success)], none)
  else
    let h_alpha := arg.alpha
    let ev0 : List Syr2Ev :=
      [Syr2Ev.allocBuffers, Syr2Ev.copyAlphaToDevice h_alpha]
    if arg.unit_check || arg.norm_check then
      let s0 := o.setModeSt 0
      if s0 ≠ HipblasStatus.success then
        (ev0 ++ [Syr2Ev.setMode PMode.host], some s0)
      else
        let c0 := o.syr2St 0
        let evA := ev0 ++
          [Syr2Ev.setMode PMode.host,
           Syr2Ev.syr2Call PMode.host (some Loc.host) (some h_alpha) false]
        if c0 ≠ HipblasStatus.success then (evA, some c0)
        else
          let s1 := o.setModeSt 1
          if s1 ≠ HipblasStatus.success then
            (evA ++ [Syr2Ev.setMode PMode.device], some s1)
          else
            let c1 := o.syr2St 1
            let evB := evA ++
              [Syr2Ev.setMode PMode.device,
               Syr2Ev.syr2Call PMode.device (some Loc.device) (some h_alpha) false]
            if c1 ≠ HipblasStatus.success then (evB, some c1)
            else
              let evC := evB
                ++ ((List.range arg.batch_count.toNat).map fun b =>
                      Syr2Ev.cblasSyr2 b)
                ++ (if arg.unit_check then
                      [Syr2Ev.checkEv CheckKind.unit Syr2Buf.hACpu Syr2Buf.hAHost,
                       Syr2Ev.checkEv CheckKind.unit Syr2Buf.hACpu Syr2Buf.hADevice]
                    else [])
                ++ (if arg.norm_check then
                      [Syr2Ev.checkEv CheckKind.norm Syr2Buf.hACpu Syr2Buf.hAHost,
                       Syr2Ev.checkEv CheckKind.norm Syr2Buf.hACpu Syr2Buf.hADevice]
                    else [])
              syr2TimingSection arg o evC 2 2
    else
      syr2TimingSection arg o ev0 0 0

/-! ## The CPU reference loops

The bodies of the reference loops call the external CPU BLAS library.  Each
loop is modelled over an abstract per-batch routine; host buffer batches are
modelled as functions from the batch index. -/

/-- The AXPY reference loop
`for(b = 0; b < batch_count; b++) cblas_axpy<T>(N, alpha, hx_cpu[b], incx, hy_cpu[b], incy);`
where `cblas` abstracts `x, y ↦` the updated `y` and the batches `hx`, `hy`
hold the host copies of the inputs. -/
def axpyCpuRef {V : Type} (cblas : V → V → V) (hx hy : Nat → V)
    (batch_count : Nat) : Nat → V :=
  (List.range batch_count).foldl
    (fun hyc b => Function.update hyc b (cblas (hx b) (hyc b))) hy

/-- The SYR2 reference loop
`for(b = 0; b < batch_count; b++) cblas_syr2<T>(uplo, N, h_alpha, hx[b], incx, hy[b], incy, hA_cpu[b], lda);`
where `cblas` abstracts `x, y, A ↦` the updated `A`. -/
def syr2CpuRef {V : Type} (cblas : V → V → V → V) (hx hy hA : Nat → V)
    (batch_count : Nat) : Nat → V :=
  (List.range batch_count).foldl
    (fun hAc b => Function.update hAc b (cblas (hx b) (hy b) (hAc b))) hA

/-- The DOT reference loop
`for(b = 0; b < batch_count; b++) (CONJ ? cblas_dotc<T> : cblas_dot<T>)(N, hx[b], incx, hy[b], incy, &h_cpu_result[b]);`
where `cblas` abstracts `x, y ↦` the scalar written to `h_cpu_result[b]`. -/
def dotCpuRef {V R : Type} (cblas : V → V → R) (hx hy : Nat → V)
    (res : Nat → R) (batch_count : Nat) : Nat → R :=
  (List.range batch_count).foldl
    (fun r b => Function.update r b (cblas (hx b) (hy b))) res

/-! ## Concrete instances used to exercise the theorems -/

/-- An oracle in which every shim call succeeds. -/
def okStatusFn : Nat → HipblasStatus := fun _ => HipblasStatus.success

/-- An all-success oracle for the AXPY harness. -/
def axpyOkOracle : AxpyOracle :=
  { setModeSt := okStatusFn, axpySt := okStatusFn,
    getStreamSt := HipblasStatus.success }

/-- An all-success oracle for the DOT harness. -/
def dotOkOracle : DotOracle :=
  { setModeSt := okStatusFn, dotSt := okStatusFn,
    getStreamSt := HipblasStatus.success }

/-- An all-success oracle for the SYR2 harness. -/
def syr2OkOracle : Syr2Oracle :=
  { setModeSt := okStatusFn, syr2St := okStatusFn,
    getStreamSt := HipblasStatus.success }

/-- A well-formed argument set exercising the checking and timing paths. -/
def argsEx : Arguments :=
  { N := 2, incx := 1, incy := 1, lda := 2, batch_count := 2, alpha := 3,
    fortran := false, unit_check := true, norm_check := false, timing := true,
    cold_iters := 1, iters := 2 }

/-- A well-formed argument set with result checking and timing both switched
off. -/
def argsNoCheck : Arguments :=
  { N := 1, incx := 1, incy := 1, lda := 1, batch_count := 1, alpha := 3,
    fortran := false, unit_check := false, norm_check := false, timing := false,
    cold_iters := 0, iters := 1 }

/-- Events of the AXPY harness that are shim invocations of the tested
routine. -/
def AxpyEv.isCall : AxpyEv → Bool
  | AxpyEv.axpyCall _ _ _ _ => true
  | _ => false

/-- Events of the AXPY harness that are pointer-mode changes or shim
invocations of the tested routine. -/
def AxpyEv.isInvokeEv : AxpyEv → Bool
  | AxpyEv.setMode _ => true
  | AxpyEv.axpyCall _ _ _ _ => true
  | _ => false

/-- Events of the AXPY harness that are shim invocations or timer reads. -/
def AxpyEv.isCallOrTimer : AxpyEv → Bool
  | AxpyEv.axpyCall _ _ _ _ => true
  | AxpyEv.timerStart => true
  | _ => false

/-- Events of the AXPY harness that are CPU reference computations or
result comparisons. -/
def AxpyEv.isRefOrCompare : AxpyEv → Bool
  | AxpyEv.cblasAxpy _ => true
  | AxpyEv.checkEv _ _ _ => true
  | _ => false

/-- Events of the DOT harness that are shim invocations of the tested
routine. -/
def DotEv.isCall : DotEv → Bool
  | DotEv.dotCall _ _ _ => true
  | _ => false

/-- Events of the DOT harness that are pointer-mode changes or shim
invocations of the tested routine. -/
def DotEv.isInvokeEv : DotEv → Bool
  | DotEv.setMode _ => true
  | DotEv.dotCall _ _ _ => true
  | _ => false

/-- Events of the DOT harness that are shim invocations or timer reads. -/
def DotEv.isCallOrTimer : DotEv → Bool
  | DotEv.dotCall _ _ _ => true
  | DotEv.timerStart => true
  | _ => false

/-- Events of the SYR2 harness that are shim invocations of the tested
routine. -/
def Syr2Ev.isCall : Syr2Ev → Bool
  | Syr2Ev.syr2Call _ _ _ _ => true
  | _ => false

/-- Events of the SYR2 harness that are pointer-mode changes or shim
invocations of the tested routine. -/
def Syr2Ev.isInvokeEv : Syr2Ev → Bool
  | Syr2Ev.setMode _ => true
  | Syr2Ev.syr2Call _ _ _ _ => true
  | _ => false

/-! ## Helper lemmas -/

/-- Evaluating a left fold of pointwise updates: position `b` holds `g b`
applied to the initial value at `b` when `b` is in range, and the initial
value otherwise.  In particular the result at `b` depends only on the initial
state at `b`. -/
theorem foldl_update_apply {β : Type} (g : Nat → β → β) :
    ∀ (bc : Nat) (init : Nat → β) (b : Nat),
      ((List.range bc).foldl (fun s i => Function.update s i (g i (s i))) init) b
        = if b < bc then g b (init b) else init b := by
  intro bc
  induction bc with
  | zero => intro init b; simp
  | succ n ih =>
    intro init b
    rw [List.range_succ, List.foldl_append, List.foldl_cons, List.foldl_nil]
    by_cases hbn : b = n
    · subst hbn
      rw [Function.update_same, ih init b, if_neg (lt_irrefl b),
        if_pos (Nat.lt_succ_self b)]
    · rw [Function.update_noteq hbn, ih init b]
      by_cases hlt : b < n
      · rw [if_pos hlt, if_pos (by omega)]
      · rw [if_neg hlt, if_neg (by omega)]

/-- When every remaining invocation succeeds, the benchmarking loop reports
no failure. -/
theorem timingLoop_snd_allSuccess {ε : Type} (call start : ε)
    (st : Nat → HipblasStatus) (hst : ∀ k, st k = HipblasStatus.success)
    (cold : Int) :
    ∀ (fuel i : Nat), (timingLoop call start st cold i fuel).2 = none := by
  intro fuel
  induction fuel with
  | zero => intro i; rw [timingLoop]
  | succ F ih =>
    intro i
    rw [timingLoop]
    simp [hst i, ih (i + 1)]

/-- When every remaining invocation succeeds and the cold-iteration count is
the natural number `c`, the benchmarking loop performs one `call` per
remaining iteration and emits `start` exactly when the iteration counter
reaches `c`. -/
theorem timingLoop_trace_allSuccess {ε : Type} (call start : ε)
    (st : Nat → HipblasStatus) (hst : ∀ k, st k = HipblasStatus.success)
    (c : Nat) :
    ∀ (fuel i : Nat),
      timingLoop call start st (c : Int) i fuel =
        (if i ≤ c ∧ c < i + fuel then
           List.replicate (c - i) call ++ start ::
             List.replicate (i + fuel - c) call
         else List.replicate fuel call, none) := by
  intro fuel
  induction fuel with
  | zero =>
    intro i
    rw [timingLoop, if_neg (by omega), List.replicate_zero]
  | succ F ih =>
    intro i
    rw [timingLoop]
    simp only [hst i, ne_eq, not_true_eq_false, not_false_eq_true, if_false,
      ite_false, if_neg, ih (i + 1), Nat.cast_inj]
    split_ifs with h1 h2 h3 <;> try omega
    · subst h1
      simp [Nat.sub_self, Nat.add_sub_cancel_left, List.replicate_succ]
    · have e1 : c - i = (c - (i + 1)) + 1 := by omega
      have e2 : i + 1 + F - c = i + (F + 1) - c := by omega
      rw [e1, List.replicate_succ, e2]
      simp
    · simp [List.replicate_succ]

/-- Every run of the AXPY harness that passes the argument sanity check with a
nonzero batch count starts by creating the handle, allocating the buffers and
copying alpha to the device, and then performs the device-pointer-mode and
host-pointer-mode invocations, whatever the shim statuses and the remaining
flags are. -/
theorem axpy_trace_shape (a : Arguments) (o : AxpyOracle)
    (hv : axpyInvalid a = false) (hbc : a.batch_count ≠ 0) :
    ∃ rest, (testing_axpy_batched a o).2 =
      [AxpyEv.createHandle, AxpyEv.allocBuffers,
       AxpyEv.copyAlphaToDevice a.alpha,
       AxpyEv.setMode PMode.device,
       AxpyEv.axpyCall PMode.device Loc.device a.alpha AxpyBuf.hyDevice,
       AxpyEv.setMode PMode.host,
       AxpyEv.axpyCall PMode.host Loc.host a.alpha AxpyBuf.hyHost] ++ rest := by
  have hbc' : (a.batch_count == 0) = false := by simpa using hbc
  simp only [testing_axpy_batched, hv, hbc', Bool.false_eq_true, if_false]
  split_ifs <;> exact ⟨_, rfl⟩

/-- Every run of the DOT harness that passes the argument sanity check with a
nonzero batch count starts by creating the handle and allocating the buffers,
and then performs the device-pointer-mode and host-pointer-mode invocations,
whatever the shim statuses and the remaining flags are. -/
theorem dot_trace_shape (CONJ : Bool) (a : Arguments) (o : DotOracle)
    (hv : dotInvalid a = false) (hbc : a.batch_count ≠ 0) :
    ∃ rest, (testing_dot_batched CONJ a o).2 =
      [DotEv.createHandle, DotEv.allocBuffers,
       DotEv.setMode PMode.device,
       DotEv.dotCall PMode.device CONJ Loc.device,
       DotEv.setMode PMode.host,
       DotEv.dotCall PMode.host CONJ Loc.host] ++ rest := by
  have hbc' : (a.batch_count == 0) = false := by simpa using hbc
  simp only [testing_dot_batched, hv, hbc', Bool.false_eq_true, if_false]
  split_ifs <;> exact ⟨_, rfl⟩

/-- Every run of the SYR2 harness that reaches the checking section and whose
first four shim calls succeed starts by allocating the buffers and copying
alpha to the device, and then performs the host-pointer-mode and
device-pointer-mode invocations, whatever the remaining statuses and flags
are. -/
theorem syr2_trace_shape (a : Arguments) (o : Syr2Oracle)
    (hv : syr2InvalidSize a = false) (hn : a.N ≠ 0) (hbc : a.batch_count ≠ 0)
    (hck : (a.unit_check || a.norm_check) = true)
    (hm0 : o.setModeSt 0 = HipblasStatus.success)
    (hc0 : o.syr2St 0 = HipblasStatus.success)
    (hm1 : o.setModeSt 1 = HipblasStatus.success)
    (hc1 : o.syr2St 1 = HipblasStatus.success) :
    ∃ rest, (testing_syr2_batched a o).1 =
      [Syr2Ev.allocBuffers, Syr2Ev.copyAlphaToDevice a.alpha,
       Syr2Ev.setMode PMode.host,
       Syr2Ev.syr2Call PMode.host (some Loc.host) (some a.alpha) false,
       Syr2Ev.setMode PMode.device,
       Syr2Ev.syr2Call PMode.device (some Loc.device) (some a.alpha) false]
        ++ rest := by
  have hn' : (a.N == 0) = false := by simpa using hn
  have hbc' : (a.batch_count == 0) = false := by simpa using hbc
  simp only [testing_syr2_batched, syr2TimingSection, hv, hn', hbc', hck, hm0,
    hc0, hm1, hc1, Bool.false_eq_true, Bool.false_or, if_false, if_true,
    ne_eq, not_true_eq_false, not_false_eq_true, ite_false, ite_true]
  split_ifs <;> exact ⟨_, rfl⟩

/-- Filtering a constant list by a predicate the constant satisfies keeps it
unchanged. -/
theorem filter_replicate_true {α : Type} (p : α → Bool) (x : α)
    (h : p x = true) (n : Nat) :
    (List.replicate n x).filter p = List.replicate n x := by
  induction n with
  | zero => rfl
  | succ m ih =>
    simp [List.replicate_succ, List.filter_cons, h, ih]

/-- When the AXPY harness passes validation with a nonzero batch count, its
first four shim statuses succeed, and a result check is requested, its trace
contains one CPU reference call per batch element and a comparison of the
reference against the host-pointer-mode output and against the
device-pointer-mode output. -/
theorem axpy_check_members (a : Arguments) (o : AxpyOracle)
    (hv : axpyInvalid a = false) (hbc : a.batch_count ≠ 0)
    (h1 : o.setModeSt 0 = HipblasStatus.success)
    (h2 : o.axpySt 0 = HipblasStatus.success)
    (h3 : o.setModeSt 1 = HipblasStatus.success)
    (h4 : o.axpySt 1 = HipblasStatus.success)
    (hck : (a.unit_check || a.norm_check) = true) :
    (∀ b, b < a.batch_count.toNat →
        AxpyEv.cblasAxpy b ∈ (testing_axpy_batched a o).2)
    ∧ (∃ k, AxpyEv.checkEv k AxpyBuf.hyCpu AxpyBuf.hyHost
          ∈ (testing_axpy_batched a o).2)
    ∧ (∃ k, AxpyEv.checkEv k AxpyBuf.hyCpu AxpyBuf.hyDevice
          ∈ (testing_axpy_batched a o).2) := by
  have hbc' : (a.batch_count == 0) = false := by simpa using hbc
  simp only [testing_axpy_batched, hv, hbc', Bool.false_eq_true, if_false,
    h1, h2, h3, h4, hck, ne_eq, not_true_eq_false, not_false_eq_true, or_self,
    if_true, ite_true, ite_false, false_or, or_false]
  split_ifs <;>
    refine ⟨fun b hb => ?_, ?_, ?_⟩ <;>
    first
      | (refine ⟨CheckKind.unit, ?_⟩; simp; done)
      | (refine ⟨CheckKind.norm, ?_⟩; simp; done)
      | simp_all [List.mem_append, List.mem_map, List.mem_range]

/-- When the DOT harness passes validation with a nonzero batch count, its
first four shim statuses succeed, and a result check is requested, its trace
contains one CPU reference call per batch element and a comparison of the
reference against the host-pointer-mode result and against the
device-pointer-mode result. -/
theorem dot_check_members (CONJ : Bool) (a : Arguments) (o : DotOracle)
    (hv : dotInvalid a = false) (hbc : a.batch_count ≠ 0)
    (h1 : o.setModeSt 0 = HipblasStatus.success)
    (h2 : o.dotSt 0 = HipblasStatus.success)
    (h3 : o.setModeSt 1 = HipblasStatus.success)
    (h4 : o.dotSt 1 = HipblasStatus.success)
    (hck : (a.unit_check || a.norm_check) = true) :
    (∀ b, b < a.batch_count.toNat →
        DotEv.cblasDot CONJ b ∈ (testing_dot_batched CONJ a o).2)
    ∧ (∃ k, DotEv.checkEv k DotBuf.cpuResult DotBuf.result1
          ∈ (testing_dot_batched CONJ a o).2)
    ∧ (∃ k, DotEv.checkEv k DotBuf.cpuResult DotBuf.result2
          ∈ (testing_dot_batched CONJ a o).2) := by
  have hbc' : (a.batch_count == 0) = false := by simpa using hbc
  simp only [testing_dot_batched, hv, hbc', Bool.false_eq_true, if_false,
    h1, h2, h3, h4, hck, ne_eq, not_true_eq_false, not_false_eq_true, or_self,
    if_true, ite_true, ite_false, false_or, or_false]
  split_ifs <;>
    refine ⟨fun b hb => ?_, ?_, ?_⟩ <;>
    first
      | (refine ⟨CheckKind.unit, ?_⟩; simp; done)
      | (refine ⟨CheckKind.norm, ?_⟩; simp; done)
      | simp_all [List.mem_append, List.mem_map, List.mem_range]

/-- When the SYR2 harness reaches the checking section and its first four shim
calls succeed, its trace contains one CPU reference call per batch element and
a comparison of the reference against the host-pointer-mode output and against
the device-pointer-mode output. -/
theorem syr2_check_members (a : Arguments) (o : Syr2Oracle)
    (hv : syr2InvalidSize a = false) (hn : a.N ≠ 0) (hbc : a.batch_count ≠ 0)
    (hck : (a.unit_check || a.norm_check) = true)
    (hm0 : o.setModeSt 0 = HipblasStatus.success)
    (hc0 : o.syr2St 0 = HipblasStatus.success)
    (hm1 : o.setModeSt 1 = HipblasStatus.success)
    (hc1 : o.syr2St 1 = HipblasStatus.success) :
    (∀ b, b < a.batch_count.toNat →
        Syr2Ev.cblasSyr2 b ∈ (testing_syr2_batched a o).1)
    ∧ (∃ k, Syr2Ev.checkEv k Syr2Buf.hACpu Syr2Buf.hAHost
          ∈ (testing_syr2_batched a o).1)
    ∧ (∃ k, Syr2Ev.checkEv k Syr2Buf.hACpu Syr2Buf.hADevice
          ∈ (testing_syr2_batched a o).1) := by
  have hn' : (a.N == 0) = false := by simpa using hn
  have hbc' : (a.batch_count == 0) = false := by simpa using hbc
  simp only [testing_syr2_batched, syr2TimingSection, hv, hn', hbc', hck, hm0,
    hc0, hm1, hc1, Bool.false_eq_true, Bool.false_or, if_false, if_true,
    ne_eq, not_true_eq_false, not_false_eq_true, ite_false, ite_true]
  split_ifs <;>
    refine ⟨fun b hb => ?_, ?_, ?_⟩ <;>
    first
      | (refine ⟨CheckKind.unit, ?_⟩; simp; done)
      | (refine ⟨CheckKind.norm, ?_⟩; simp; done)
      | simp_all [List.mem_append, List.mem_map, List.mem_range]

/-! ## Claim theorems -/

/-- C4: `testing_axpy_batched` returns `HIPBLAS_STATUS_INVALID_VALUE` with an
empty event trace (so no buffer allocation, handle creation or shim
invocation) exactly when `N < 0`, `incx == 0`, `incy == 0` or
`batch_count < 0` (negative increments are accepted); when those are all false
and `batch_count == 0` it returns success with an empty trace; in every other
case it creates the handle, allocates the buffers and invokes the routine. -/
theorem axpy_argument_validation (a : Arguments) (o : AxpyOracle) :
    (axpyInvalid a = true ↔
      (a.N < 0 ∨ a.incx = 0 ∨ a.incy = 0 ∨ a.batch_count < 0))
    ∧ (axpyInvalid a = true →
        testing_axpy_batched a o = (HipblasStatus.invalidValue, []))
    ∧ (axpyInvalid a = false → a.batch_count = 0 →
        testing_axpy_batched a o = (HipblasStatus.success, []))
    ∧ (axpyInvalid a = false → a.batch_count ≠ 0 →
        AxpyEv.createHandle ∈ (testing_axpy_batched a o).2
        ∧ AxpyEv.allocBuffers ∈ (testing_axpy_batched a o).2
        ∧ AxpyEv.axpyCall PMode.device Loc.device a.alpha AxpyBuf.hyDevice
            ∈ (testing_axpy_batched a o).2) := by
  refine ⟨by simp [axpyInvalid]; tauto, ?_, ?_, ?_⟩
  · intro h
    simp [testing_axpy_batched, h]
  · intro h hbc
    have hbc' : (a.batch_count == 0) = true := by simpa using hbc
    simp [testing_axpy_batched, h, hbc']
  · intro h hbc
    obtain ⟨rest, hr⟩ := axpy_trace_shape a o h hbc
    rw [hr]
    exact ⟨by simp, by simp, by simp⟩

/-- Witness for C4: an argument set with a negative `N` is rejected with an
empty trace. -/
theorem axpy_argument_validation_witness :
    testing_axpy_batched { argsEx with N := -1 } axpyOkOracle
      = (HipblasStatus.invalidValue, []) :=
  (axpy_argument_validation { argsEx with N := -1 } axpyOkOracle).2.1
    (by decide)

/-- C5: `testing_dot_batched` returns `HIPBLAS_STATUS_INVALID_VALUE` with an
empty event trace exactly when `N < 0`, `incx < 0`, `incy < 0` or
`batch_count < 0`: zero increments pass validation and negative increments
are rejected, the opposite of the AXPY harness's rule. -/
theorem dot_argument_validation (CONJ : Bool) (a : Arguments) (o : DotOracle) :
    (dotInvalid a = true ↔
      (a.N < 0 ∨ a.incx < 0 ∨ a.incy < 0 ∨ a.batch_count < 0))
    ∧ (dotInvalid a = true →
        testing_dot_batched CONJ a o = (HipblasStatus.invalidValue, []))
    ∧ (dotInvalid a = false → a.batch_count = 0 →
        testing_dot_batched CONJ a o = (HipblasStatus.success, []))
    ∧ (dotInvalid a = false → a.batch_count ≠ 0 →
        DotEv.allocBuffers ∈ (testing_dot_batched CONJ a o).2
        ∧ DotEv.dotCall PMode.device CONJ Loc.device
            ∈ (testing_dot_batched CONJ a o).2)
    ∧ (0 ≤ a.N → a.incx = 0 → 0 ≤ a.incy → 0 ≤ a.batch_count →
        dotInvalid a = false)
    ∧ (a.incx < 0 → dotInvalid a = true) := by
  refine ⟨by simp [dotInvalid]; tauto, ?_, ?_, ?_, ?_, ?_⟩
  · intro h
    simp [testing_dot_batched, h]
  · intro h hbc
    have hbc' : (a.batch_count == 0) = true := by simpa using hbc
    simp [testing_dot_batched, h, hbc']
  · intro h hbc
    obtain ⟨rest, hr⟩ := dot_trace_shape CONJ a o h hbc
    rw [hr]
    exact ⟨by simp, by simp⟩
  · intro h1 h2 h3 h4
    simp [dotInvalid]
    omega
  · intro h
    simp [dotInvalid]
    omega

/-- Witness for C5: an argument set with a negative `incx` is rejected with an
empty trace, while the same shape is accepted by the AXPY validity rule. -/
theorem dot_argument_validation_witness :
    testing_dot_batched false { argsEx with incx := -1 } dotOkOracle
      = (HipblasStatus.invalidValue, []) :=
  (dot_argument_validation false { argsEx with incx := -1 } dotOkOracle).2.1
    (by decide)

/-- C6: whenever the SYR2 harness's invalid-size condition
(`N < 0`, `incx == 0`, `incy == 0`, `lda < N`, `lda < 1` or
`batch_count < 0`) or one of the degenerate-size conditions (`N == 0`,
`batch_count == 0`) holds, the harness performs exactly one shim invocation
with all data pointers null, asserts that its status is
`HIPBLAS_STATUS_INVALID_VALUE` when the invalid-size condition holds and
`HIPBLAS_STATUS_SUCCESS` otherwise, and returns without allocating any
buffers. -/
theorem syr2_quick_return (a : Arguments) (o : Syr2Oracle)
    (h : syr2InvalidSize a = true ∨ a.N = 0 ∨ a.batch_count = 0) :
    (syr2InvalidSize a = true ↔
      (a.N < 0 ∨ a.incx = 0 ∨ a.incy = 0 ∨ a.lda < a.N ∨ a.lda < 1
        ∨ a.batch_count < 0))
    ∧ testing_syr2_batched a o =
      ([Syr2Ev.syr2Call PMode.host none none true,
        Syr2Ev.expectStatus (o.syr2St 0)
          (if syr2InvalidSize a then HipblasStatus.invalidValue
           else HipblasStatus.success)], none) := by
  constructor
  · simp [syr2InvalidSize]
    tauto
  · have hc : (syr2InvalidSize a || a.N == 0 || a.batch_count == 0) = true := by
      rcases h with h | h | h <;> simp [h]
    simp [testing_syr2_batched, hc]

/-- Witness for C6: with `N == 0` and otherwise valid sizes the harness
performs the single null-pointer probe call and expects success. -/
theorem syr2_quick_return_witness :
    testing_syr2_batched { argsEx with N := 0 } syr2OkOracle =
      ([Syr2Ev.syr2Call PMode.host none none true,
        Syr2Ev.expectStatus HipblasStatus.success HipblasStatus.success],
       none) :=
  ((syr2_quick_return { argsEx with N := 0 } syr2OkOracle
      (Or.inr (Or.inl rfl))).2).trans (by decide)

/-- C8: `testing_dotc_batched<T>` is exactly `testing_dot_batched<T, true>`
on the same arguments: the DOTC harness is the DOT harness instantiated with
the conjugating routine variant. -/
theorem dotc_is_dot_conjugate (argus : Arguments) (o : DotOracle) :
    testing_dotc_batched argus o = testing_dot_batched true argus o := rfl

/-- C3: when the AXPY harness passes validation with a nonzero batch count,
if any of the four calls (set pointer mode to device, device-mode AXPY, set
pointer mode to host, host-mode AXPY) fails, the harness destroys the handle
and returns the status of the first failing call in that order; if all four
succeed and no later call fails, it returns `HIPBLAS_STATUS_SUCCESS`. -/
theorem axpy_status_propagation (a : Arguments) (o : AxpyOracle)
    (hv : axpyInvalid a = false) (hbc : a.batch_count ≠ 0) :
    ((o.setModeSt 0 ≠ HipblasStatus.success
        ∨ o.axpySt 0 ≠ HipblasStatus.success
        ∨ o.setModeSt 1 ≠ HipblasStatus.success
        ∨ o.axpySt 1 ≠ HipblasStatus.success) →
      (testing_axpy_batched a o).1 =
        (if o.setModeSt 0 ≠ HipblasStatus.success then o.setModeSt 0
         else if o.axpySt 0 ≠ HipblasStatus.success then o.axpySt 0
         else if o.setModeSt 1 ≠ HipblasStatus.success then o.setModeSt 1
         else o.axpySt 1)
      ∧ AxpyEv.destroyHandle ∈ (testing_axpy_batched a o).2)
    ∧ (o.setModeSt 0 = HipblasStatus.success →
       o.axpySt 0 = HipblasStatus.success →
       o.setModeSt 1 = HipblasStatus.success →
       o.axpySt 1 = HipblasStatus.success →
       (a.timing = true → o.getStreamSt = HipblasStatus.success
          ∧ o.setModeSt 2 = HipblasStatus.success
          ∧ ∀ k, o.axpySt k = HipblasStatus.success) →
       (testing_axpy_batched a o).1 = HipblasStatus.success) := by
  have hbc' : (a.batch_count == 0) = false := by simpa using hbc
  constructor
  · intro h
    simp only [testing_axpy_batched, hv, hbc', Bool.false_eq_true, if_false]
    rw [if_pos h]
    exact ⟨rfl, by simp⟩
  · intro hs1 hs2 hs3 hs4 hlater
    simp only [testing_axpy_batched, hv, hbc', Bool.false_eq_true, if_false,
      hs1, hs2, hs3, hs4, ne_eq, not_true_eq_false, or_self, ite_false]
    by_cases ht : a.timing = true
    · obtain ⟨hg, hm2, hloop⟩ := hlater ht
      simp only [ht, ite_true, hg, hm2, not_true_eq_false, or_self, ite_false]
      rw [timingLoop_snd_allSuccess _ _ _ (fun k => hloop (2 + k))]
      rfl
    · have ht' : a.timing = false := by simpa using ht
      simp [ht']

/-- Witness for C3: at a well-formed argument set with an all-success oracle
the harness returns success. -/
theorem axpy_status_propagation_witness :
    (testing_axpy_batched argsEx axpyOkOracle).1 = HipblasStatus.success :=
  (axpy_status_propagation argsEx axpyOkOracle (by decide) (by decide)).2
    rfl rfl rfl rfl (fun _ => ⟨rfl, rfl, fun _ => rfl⟩)

/-- C7: each CPU reference loop updates exactly the batch element it is at,
so the reference result for a batch index in range is the per-batch routine
applied to that batch element's inputs only: it does not depend on the inputs
or outputs of any other batch element. -/
theorem cpu_reference_batch_independent {V R : Type}
    (cblasAxpyFn : V → V → V) (cblasSyr2Fn : V → V → V → V)
    (cblasDotFn : V → V → R) (hx hy hA : Nat → V) (res : Nat → R)
    (batch_count b : Nat) (hb : b < batch_count) :
    axpyCpuRef cblasAxpyFn hx hy batch_count b = cblasAxpyFn (hx b) (hy b)
    ∧ syr2CpuRef cblasSyr2Fn hx hy hA batch_count b
        = cblasSyr2Fn (hx b) (hy b) (hA b)
    ∧ dotCpuRef cblasDotFn hx hy res batch_count b
        = cblasDotFn (hx b) (hy b) := by
  refine ⟨?_, ?_, ?_⟩
  · have h := foldl_update_apply (fun i s => cblasAxpyFn (hx i) s)
      batch_count hy b
    simpa [axpyCpuRef, hb] using h
  · have h := foldl_update_apply (fun i s => cblasSyr2Fn (hx i) (hy i) s)
      batch_count hA b
    simpa [syr2CpuRef, hb] using h
  · have h := foldl_update_apply (fun i _ => cblasDotFn (hx i) (hy i))
      batch_count res b
    simpa [dotCpuRef, hb] using h

/-- Witness for C7: evaluating the three reference loops at batch index 1 of
2 gives the per-batch routine applied to that element's inputs. -/
theorem cpu_reference_batch_independent_witness :
    axpyCpuRef (fun x y => x + y) (fun _ => (1 : Int)) (fun _ => (2 : Int)) 2 1
      = (fun x y => x + y) ((fun _ => (1 : Int)) 1) ((fun _ => (2 : Int)) 1)
    ∧ syr2CpuRef (fun x y A => x + y + A) (fun _ => (1 : Int))
        (fun _ => (2 : Int)) (fun _ => (5 : Int)) 2 1
      = (fun x y A => x + y + A) ((fun _ => (1 : Int)) 1)
          ((fun _ => (2 : Int)) 1) ((fun _ => (5 : Int)) 1)
    ∧ dotCpuRef (fun x y => x * y) (fun _ => (1 : Int)) (fun _ => (2 : Int))
        (fun _ => (0 : Int)) 2 1
      = (fun x y => x * y) ((fun _ => (1 : Int)) 1) ((fun _ => (2 : Int)) 1) :=
  cpu_reference_batch_independent (fun x y => x + y) (fun x y A => x + y + A)
    (fun x y => x * y) (fun _ => (1 : Int)) (fun _ => (2 : Int))
    (fun _ => (5 : Int)) (fun _ => (0 : Int)) 2 1 (by decide)

/-- Counterexample to C1 as stated: the argument set `argsNoCheck` passes the
AXPY harness's validity check, has a nonzero batch count and a fully
successful run, yet with `unit_check` and `norm_check` both off the harness
computes no CPU reference result and performs no comparison at all. -/
theorem harness_reference_counterexample :
    axpyInvalid argsNoCheck = false ∧ argsNoCheck.batch_count ≠ 0
    ∧ (testing_axpy_batched argsNoCheck axpyOkOracle).1
        = HipblasStatus.success
    ∧ (testing_axpy_batched argsNoCheck axpyOkOracle).2.filter
        AxpyEv.isRefOrCompare = [] := by
  decide

/-- C1 (amended): when a harness passes its validity check, the shim calls
succeed and a result check (`unit_check` or `norm_check`) is requested, the
harness applies the CPU reference routine to every one of the `batch_count`
batch elements and compares both the host-pointer-mode output and the
device-pointer-mode output against the reference buffer. -/
theorem harness_reference_and_compare (a : Arguments) (oA : AxpyOracle)
    (oD : DotOracle) (oS : Syr2Oracle) (CONJ : Bool) :
    (axpyInvalid a = false → a.batch_count ≠ 0 →
      oA.setModeSt 0 = HipblasStatus.success →
      oA.axpySt 0 = HipblasStatus.success →
      oA.setModeSt 1 = HipblasStatus.success →
      oA.axpySt 1 = HipblasStatus.success →
      (a.unit_check || a.norm_check) = true →
      (∀ b, b < a.batch_count.toNat →
          AxpyEv.cblasAxpy b ∈ (testing_axpy_batched a oA).2)
      ∧ (∃ k, AxpyEv.checkEv k AxpyBuf.hyCpu AxpyBuf.hyHost
            ∈ (testing_axpy_batched a oA).2)
      ∧ (∃ k, AxpyEv.checkEv k AxpyBuf.hyCpu AxpyBuf.hyDevice
            ∈ (testing_axpy_batched a oA).2))
    ∧ (dotInvalid a = false → a.batch_count ≠ 0 →
      oD.setModeSt 0 = HipblasStatus.success →
      oD.dotSt 0 = HipblasStatus.success →
      oD.setModeSt 1 = HipblasStatus.success →
      oD.dotSt 1 = HipblasStatus.success →
      (a.unit_check || a.norm_check) = true →
      (∀ b, b < a.batch_count.toNat →
          DotEv.cblasDot CONJ b ∈ (testing_dot_batched CONJ a oD).2)
      ∧ (∃ k, DotEv.checkEv k DotBuf.cpuResult DotBuf.result1
            ∈ (testing_dot_batched CONJ a oD).2)
      ∧ (∃ k, DotEv.checkEv k DotBuf.cpuResult DotBuf.result2
            ∈ (testing_dot_batched CONJ a oD).2))
    ∧ (syr2InvalidSize a = false → a.N ≠ 0 → a.batch_count ≠ 0 →
      (a.unit_check || a.norm_check) = true →
      oS.setModeSt 0 = HipblasStatus.success →
      oS.syr2St 0 = HipblasStatus.success →
      oS.setModeSt 1 = HipblasStatus.success →
      oS.syr2St 1 = HipblasStatus.success →
      (∀ b, b < a.batch_count.toNat →
          Syr2Ev.cblasSyr2 b ∈ (testing_syr2_batched a oS).1)
      ∧ (∃ k, Syr2Ev.checkEv k Syr2Buf.hACpu Syr2Buf.hAHost
            ∈ (testing_syr2_batched a oS).1)
      ∧ (∃ k, Syr2Ev.checkEv k Syr2Buf.hACpu Syr2Buf.hADevice
            ∈ (testing_syr2_batched a oS).1)) :=
  ⟨fun hv hbc h1 h2 h3 h4 hck =>
      axpy_check_members a oA hv hbc h1 h2 h3 h4 hck,
   fun hv hbc h1 h2 h3 h4 hck =>
      dot_check_members CONJ a oD hv hbc h1 h2 h3 h4 hck,
   fun hv hn hbc hck hm0 hc0 hm1 hc1 =>
      syr2_check_members a oS hv hn hbc hck hm0 hc0 hm1 hc1⟩

/-- Witness for C1: at a well-formed argument set with unit checking on and
an all-success oracle, the AXPY harness runs the CPU reference on batch 0. -/
theorem harness_reference_and_compare_witness :
    AxpyEv.cblasAxpy 0 ∈ (testing_axpy_batched argsEx axpyOkOracle).2 :=
  (((harness_reference_and_compare argsEx axpyOkOracle dotOkOracle
        syr2OkOracle false).1
      (by decide) (by decide) rfl rfl rfl rfl (by decide)).1) 0 (by decide)

/-- Counterexample to C2 as stated: the argument set `argsNoCheck` passes the
SYR2 harness's validity check (valid sizes, nonzero `N` and `batch_count`),
yet with `unit_check`, `norm_check` and `timing` all off the SYR2 harness
performs no shim invocation on it, in particular none under the host-pointer
convention. -/
theorem syr2_dual_invocation_counterexample :
    syr2InvalidSize argsNoCheck = false ∧ argsNoCheck.N ≠ 0
    ∧ argsNoCheck.batch_count ≠ 0
    ∧ (testing_syr2_batched argsNoCheck syr2OkOracle).1.filter Syr2Ev.isCall
        = [] := by
  decide

/-- C2 (amended): for every argument set passing the validity check with a
nonzero batch count, the AXPY and DOT harnesses invoke the batched routine
under both calling conventions — first after setting
`HIPBLAS_POINTER_MODE_DEVICE` with the scalar (for DOT, the result) given as
a device address, then after setting `HIPBLAS_POINTER_MODE_HOST` with the
scalar (result) given as a host address; the SYR2 harness does the same (host
mode first) provided a result check is requested and the preceding shim calls
succeed. -/
theorem harness_dual_invocation (a : Arguments) (oA : AxpyOracle)
    (oD : DotOracle) (oS : Syr2Oracle) (CONJ : Bool) :
    (axpyInvalid a = false → a.batch_count ≠ 0 →
      ∃ rest, (testing_axpy_batched a oA).2.filter AxpyEv.isInvokeEv
        = [AxpyEv.setMode PMode.device,
           AxpyEv.axpyCall PMode.device Loc.device a.alpha AxpyBuf.hyDevice,
           AxpyEv.setMode PMode.host,
           AxpyEv.axpyCall PMode.host Loc.host a.alpha AxpyBuf.hyHost] ++ rest)
    ∧ (dotInvalid a = false → a.batch_count ≠ 0 →
      ∃ rest, (testing_dot_batched CONJ a oD).2.filter DotEv.isInvokeEv
        = [DotEv.setMode PMode.device,
           DotEv.dotCall PMode.device CONJ Loc.device,
           DotEv.setMode PMode.host,
           DotEv.dotCall PMode.host CONJ Loc.host] ++ rest)
    ∧ (syr2InvalidSize a = false → a.N ≠ 0 → a.batch_count ≠ 0 →
      (a.unit_check || a.norm_check) = true →
      oS.setModeSt 0 = HipblasStatus.success →
      oS.syr2St 0 = HipblasStatus.success →
      oS.setModeSt 1 = HipblasStatus.success →
      oS.syr2St 1 = HipblasStatus.success →
      ∃ rest, (testing_syr2_batched a oS).1.filter Syr2Ev.isInvokeEv
        = [Syr2Ev.setMode PMode.host,
           Syr2Ev.syr2Call PMode.host (some Loc.host) (some a.alpha) false,
           Syr2Ev.setMode PMode.device,
           Syr2Ev.syr2Call PMode.device (some Loc.device) (some a.alpha) false]
          ++ rest) := by
  refine ⟨?_, ?_, ?_⟩
  · intro hv hbc
    obtain ⟨rest, hr⟩ := axpy_trace_shape a oA hv hbc
    refine ⟨rest.filter AxpyEv.isInvokeEv, ?_⟩
    rw [hr, List.filter_append]
    rfl
  · intro hv hbc
    obtain ⟨rest, hr⟩ := dot_trace_shape CONJ a oD hv hbc
    refine ⟨rest.filter DotEv.isInvokeEv, ?_⟩
    rw [hr, List.filter_append]
    rfl
  · intro hv hn hbc hck hm0 hc0 hm1 hc1
    obtain ⟨rest, hr⟩ := syr2_trace_shape a oS hv hn hbc hck hm0 hc0 hm1 hc1
    refine ⟨rest.filter Syr2Ev.isInvokeEv, ?_⟩
    rw [hr, List.filter_append]
    rfl

/-- Witness for C2 (amended): at a well-formed argument set the AXPY harness
performs exactly the device-mode and host-mode invocation sequence before its
timing section. -/
theorem harness_dual_invocation_witness :
    ∃ rest, (testing_axpy_batched argsEx axpyOkOracle).2.filter
        AxpyEv.isInvokeEv
      = [AxpyEv.setMode PMode.device,
         AxpyEv.axpyCall PMode.device Loc.device argsEx.alpha AxpyBuf.hyDevice,
         AxpyEv.setMode PMode.host,
         AxpyEv.axpyCall PMode.host Loc.host argsEx.alpha AxpyBuf.hyHost]
        ++ rest :=
  (harness_dual_invocation argsEx axpyOkOracle dotOkOracle syr2OkOracle
      false).1 (by decide) (by decide)

/-- C9: in the AXPY and SYR2 harnesses on the checking path, the host scalar
alpha is copied to the device buffer `d_alpha` before any shim invocation
(the copy is among the first events, before the first call), and the
device-pointer-mode invocation receives through its device address the same
scalar value that the host-pointer-mode invocation receives by host address. -/
theorem alpha_same_value_both_modes (a : Arguments) (oA : AxpyOracle)
    (oS : Syr2Oracle) :
    (axpyInvalid a = false → a.batch_count ≠ 0 →
      (∃ rest, (testing_axpy_batched a oA).2
        = [AxpyEv.createHandle, AxpyEv.allocBuffers,
           AxpyEv.copyAlphaToDevice a.alpha] ++ rest)
      ∧ (∃ calls, (testing_axpy_batched a oA).2.filter AxpyEv.isCall
        = [AxpyEv.axpyCall PMode.device Loc.device a.alpha AxpyBuf.hyDevice,
           AxpyEv.axpyCall PMode.host Loc.host a.alpha AxpyBuf.hyHost]
          ++ calls))
    ∧ (syr2InvalidSize a = false → a.N ≠ 0 → a.batch_count ≠ 0 →
      (a.unit_check || a.norm_check) = true →
      oS.setModeSt 0 = HipblasStatus.success →
      oS.syr2St 0 = HipblasStatus.success →
      oS.setModeSt 1 = HipblasStatus.success →
      oS.syr2St 1 = HipblasStatus.success →
      (∃ rest, (testing_syr2_batched a oS).1
        = [Syr2Ev.allocBuffers, Syr2Ev.copyAlphaToDevice a.alpha] ++ rest)
      ∧ (∃ calls, (testing_syr2_batched a oS).1.filter Syr2Ev.isCall
        = [Syr2Ev.syr2Call PMode.host (some Loc.host) (some a.alpha) false,
           Syr2Ev.syr2Call PMode.device (some Loc.device) (some a.alpha) false]
          ++ calls)) := by
  constructor
  · intro hv hbc
    obtain ⟨rest, hr⟩ := axpy_trace_shape a oA hv hbc
    constructor
    · refine ⟨[AxpyEv.setMode PMode.device,
        AxpyEv.axpyCall PMode.device Loc.device a.alpha AxpyBuf.hyDevice,
        AxpyEv.setMode PMode.host,
        AxpyEv.axpyCall PMode.host Loc.host a.alpha AxpyBuf.hyHost] ++ rest, ?_⟩
      rw [hr]
      rfl
    · refine ⟨rest.filter AxpyEv.isCall, ?_⟩
      rw [hr, List.filter_append]
      rfl
  · intro hv hn hbc hck hm0 hc0 hm1 hc1
    obtain ⟨rest, hr⟩ := syr2_trace_shape a oS hv hn hbc hck hm0 hc0 hm1 hc1
    constructor
    · refine ⟨[Syr2Ev.setMode PMode.host,
        Syr2Ev.syr2Call PMode.host (some Loc.host) (some a.alpha) false,
        Syr2Ev.setMode PMode.device,
        Syr2Ev.syr2Call PMode.device (some Loc.device) (some a.alpha) false]
          ++ rest, ?_⟩
      rw [hr]
      rfl
    · refine ⟨rest.filter Syr2Ev.isCall, ?_⟩
      rw [hr, List.filter_append]
      rfl

/-- Witness for C9: at a well-formed argument set the AXPY harness copies
alpha to the device as its third event, before any invocation. -/
theorem alpha_same_value_both_modes_witness :
    ∃ rest, (testing_axpy_batched argsEx axpyOkOracle).2
      = [AxpyEv.createHandle, AxpyEv.allocBuffers,
         AxpyEv.copyAlphaToDevice argsEx.alpha] ++ rest :=
  ((alpha_same_value_both_modes argsEx axpyOkOracle syr2OkOracle).1
      (by decide) (by decide)).1

/-- When the AXPY harness reaches a fully successful timing run, its shim
invocations and timer reads are: the two pointer-mode convention calls, then
`cold_iters` device-mode warm-up calls, the timer start, and `iters` timed
device-mode calls. -/
theorem axpy_timing_filter (a : Arguments) (o : AxpyOracle)
    (hv : axpyInvalid a = false) (hbc : a.batch_count ≠ 0)
    (ht : a.timing = true) (hc : 0 ≤ a.cold_iters) (hi : 0 < a.iters)
    (hm : ∀ k, o.setModeSt k = HipblasStatus.success)
    (hs : ∀ k, o.axpySt k = HipblasStatus.success)
    (hg : o.getStreamSt = HipblasStatus.success) :
    (testing_axpy_batched a o).2.filter AxpyEv.isCallOrTimer
      = [AxpyEv.axpyCall PMode.device Loc.device a.alpha AxpyBuf.hyDevice,
         AxpyEv.axpyCall PMode.host Loc.host a.alpha AxpyBuf.hyHost]
        ++ List.replicate a.cold_iters.toNat
            (AxpyEv.axpyCall PMode.device Loc.device a.alpha AxpyBuf.hyDevice)
        ++ AxpyEv.timerStart ::
          List.replicate a.iters.toNat
            (AxpyEv.axpyCall PMode.device Loc.device a.alpha AxpyBuf.hyDevice) := by
  have hbc' : (a.batch_count == 0) = false := by simpa using hbc
  have hloop := timingLoop_trace_allSuccess
      (AxpyEv.axpyCall PMode.device Loc.device a.alpha AxpyBuf.hyDevice)
      AxpyEv.timerStart (fun i => o.axpySt (2 + i)) (fun k => hs (2 + k))
      a.cold_iters.toNat ((a.cold_iters + a.iters).toNat) 0
  rw [Int.toNat_of_nonneg hc] at hloop
  rw [if_pos (by omega)] at hloop
  have hcnt : 0 + (a.cold_iters + a.iters).toNat - a.cold_iters.toNat
      = a.iters.toNat := by omega
  rw [hcnt, Nat.sub_zero] at hloop
  simp only [testing_axpy_batched, hv, hbc', Bool.false_eq_true, if_false,
    hm 0, hm 1, hm 2, hs 0, hs 1, hg, ne_eq, not_true_eq_false, or_self,
    ite_false, ht, ite_true, hloop]
  split_ifs <;>
    simp [AxpyEv.isCallOrTimer, List.filter_append, filter_replicate_true,
      List.filter_map, Function.comp]

/-- When the DOT harness reaches a fully successful timing run, its shim
invocations and timer reads are: the two pointer-mode convention calls, then
`cold_iters` device-mode warm-up calls, the timer start, and `iters` timed
device-mode calls. -/
theorem dot_timing_filter (CONJ : Bool) (a : Arguments) (o : DotOracle)
    (hv : dotInvalid a = false) (hbc : a.batch_count ≠ 0)
    (ht : a.timing = true) (hc : 0 ≤ a.cold_iters) (hi : 0 < a.iters)
    (hm : ∀ k, o.setModeSt k = HipblasStatus.success)
    (hs : ∀ k, o.dotSt k = HipblasStatus.success)
    (hg : o.getStreamSt = HipblasStatus.success) :
    (testing_dot_batched CONJ a o).2.filter DotEv.isCallOrTimer
      = [DotEv.dotCall PMode.device CONJ Loc.device,
         DotEv.dotCall PMode.host CONJ Loc.host]
        ++ List.replicate a.cold_iters.toNat
            (DotEv.dotCall PMode.device CONJ Loc.device)
        ++ DotEv.timerStart ::
          List.replicate a.iters.toNat
            (DotEv.dotCall PMode.device CONJ Loc.device) := by
  have hbc' : (a.batch_count == 0) = false := by simpa using hbc
  have hloop := timingLoop_trace_allSuccess
      (DotEv.dotCall PMode.device CONJ Loc.device)
      DotEv.timerStart (fun i => o.dotSt (2 + i)) (fun k => hs (2 + k))
      a.cold_iters.toNat ((a.cold_iters + a.iters).toNat) 0
  rw [Int.toNat_of_nonneg hc] at hloop
  rw [if_pos (by omega)] at hloop
  have hcnt : 0 + (a.cold_iters + a.iters).toNat - a.cold_iters.toNat
      = a.iters.toNat := by omega
  rw [hcnt, Nat.sub_zero] at hloop
  simp only [testing_dot_batched, hv, hbc', Bool.false_eq_true, if_false,
    hm 0, hm 1, hm 2, hs 0, hs 1, hg, ne_eq, not_true_eq_false, or_self,
    ite_false, ht, ite_true, hloop]
  split_ifs <;>
    simp [DotEv.isCallOrTimer, List.filter_append, filter_replicate_true,
      List.filter_map, Function.comp]

/-- C10: when the timing flag is set, the iteration counts are meaningful
(`0 ≤ cold_iters`, `0 < iters`) and every call succeeds, the AXPY and DOT
harnesses each invoke the routine exactly `cold_iters + iters` additional
times, all in device-pointer mode, and the timer read happens exactly at the
iteration with index `cold_iters`, so that only the final `iters` invocations
fall after it. -/
theorem timing_iteration_counts (a : Arguments) (oA : AxpyOracle)
    (oD : DotOracle) (CONJ : Bool)
    (ht : a.timing = true) (hc : 0 ≤ a.cold_iters) (hi : 0 < a.iters) :
    (axpyInvalid a = false → a.batch_count ≠ 0 →
      (∀ k, oA.setModeSt k = HipblasStatus.success) →
      (∀ k, oA.axpySt k = HipblasStatus.success) →
      oA.getStreamSt = HipblasStatus.success →
      (testing_axpy_batched a oA).2.filter AxpyEv.isCallOrTimer
        = [AxpyEv.axpyCall PMode.device Loc.device a.alpha AxpyBuf.hyDevice,
           AxpyEv.axpyCall PMode.host Loc.host a.alpha AxpyBuf.hyHost]
          ++ List.replicate a.cold_iters.toNat
              (AxpyEv.axpyCall PMode.device Loc.device a.alpha AxpyBuf.hyDevice)
          ++ AxpyEv.timerStart ::
            List.replicate a.iters.toNat
              (AxpyEv.axpyCall PMode.device Loc.device a.alpha AxpyBuf.hyDevice))
    ∧ (dotInvalid a = false → a.batch_count ≠ 0 →
      (∀ k, oD.setModeSt k = HipblasStatus.success) →
      (∀ k, oD.dotSt k = HipblasStatus.success) →
      oD.getStreamSt = HipblasStatus.success →
      (testing_dot_batched CONJ a oD).2.filter DotEv.isCallOrTimer
        = [DotEv.dotCall PMode.device CONJ Loc.device,
           DotEv.dotCall PMode.host CONJ Loc.host]
          ++ List.replicate a.cold_iters.toNat
              (DotEv.dotCall PMode.device CONJ Loc.device)
          ++ DotEv.timerStart ::
            List.replicate a.iters.toNat
              (DotEv.dotCall PMode.device CONJ Loc.device)) :=
  ⟨fun hv hbc hm hs hg =>
      axpy_timing_filter a oA hv hbc ht hc hi hm hs hg,
   fun hv hbc hm hs hg =>
      dot_timing_filter CONJ a oD hv hbc ht hc hi hm hs hg⟩

/-- Witness for C10: at `argsEx` (one warm-up iteration, two timed
iterations) the AXPY harness's invocation/timer sequence is the two
convention calls, one warm-up call, the timer start and two timed calls. -/
theorem timing_iteration_counts_witness :
    (testing_axpy_batched argsEx axpyOkOracle).2.filter AxpyEv.isCallOrTimer
      = [AxpyEv.axpyCall PMode.device Loc.device argsEx.alpha AxpyBuf.hyDevice,
         AxpyEv.axpyCall PMode.host Loc.host argsEx.alpha AxpyBuf.hyHost]
        ++ List.replicate argsEx.cold_iters.toNat
            (AxpyEv.axpyCall PMode.device Loc.device argsEx.alpha
              AxpyBuf.hyDevice)
        ++ AxpyEv.timerStart ::
          List.replicate argsEx.iters.toNat
            (AxpyEv.axpyCall PMode.device Loc.device argsEx.alpha
              AxpyBuf.hyDevice) :=
  (timing_iteration_counts argsEx axpyOkOracle dotOkOracle false
      (by decide) (by decide) (by decide)).1
    (by decide) (by decide) (fun _ => rfl) (fun _ => rfl) rfl
